import Mathlib

/-!
Verification development for the azsm repository (Azure Save Money).

The definitions below are a shallow embedding of the Python sources:

* `src/azure_cost_analyzer/utils.py` — the static disk-tier tables and
  `DiskMapper.get_tier_from_size` (the `azsm.utils` module imported by the
  `azsm` package is this same vendored module).
* `src/azsm/azsm/pricing_client.py` — the pricing reconciliation logic of
  `PricingClient._get_vm_pricing` and `PricingClient._get_disk_pricing`
  (the per-item folds; the HTTP transport is out of scope).
* `src/azsm/cost_calculator.py` — `CostCalculator.calculate_costs`,
  `_calculate_vm_cost` and `_calculate_disk_cost`.

Python floats are modelled as `ℚ`; Python `None`-able values as `Option`;
Python dictionaries as association lists; a raised exception as
`Except.error` carrying the exception description.  Python truthiness on an
optional float (`if price:`) is `truthyOpt`: `None` and `0.0` are falsy.
-/

namespace Azsm

/-! ### Disk size tables (src/azure_cost_analyzer/utils.py, lines 11-57)

The Python dicts are written in ascending key order; they are modelled as
association lists in the same order. -/

def PREMIUM_DISK_SIZES : List (Nat × String) :=
  [(4, "P1"), (8, "P2"), (16, "P3"), (32, "P4"), (64, "P6"), (128, "P10"),
   (256, "P15"), (512, "P20"), (1024, "P30"), (2048, "P40"), (4096, "P50"),
   (8192, "P60"), (16384, "P70"), (32767, "P80")]

def STANDARD_SSD_SIZES : List (Nat × String) :=
  [(4, "E1"), (8, "E2"), (16, "E3"), (32, "E4"), (64, "E6"), (128, "E10"),
   (256, "E15"), (512, "E20"), (1024, "E30"), (2048, "E40"), (4096, "E50"),
   (8192, "E60"), (16384, "E70"), (32767, "E80")]

def STANDARD_HDD_SIZES : List (Nat × String) :=
  [(32, "S4"), (64, "S6"), (128, "S10"), (256, "S15"), (512, "S20"),
   (1024, "S30"), (2048, "S40"), (4096, "S50"), (8192, "S60"),
   (16384, "S70"), (32767, "S80")]

/-- Keys of a Python dict modelled as an association list. -/
def dictKeys {α β : Type} (m : List (α × β)) : List α := m.map Prod.fst

/-- Python `next((s for s in avail if s >= c), avail[-1])` where `avail` is a
sorted list: the first element `≥ c`, else the last element.  Python evaluates
`avail[-1]` eagerly, so an empty `avail` raises `IndexError`; that case is
modelled as `none`. -/
def nextAtOrAbove (avail : List Nat) (c : Nat) : Option Nat :=
  match avail.find? (fun s => decide (c ≤ s)) with
  | some s => some s
  | none => avail.getLast?

/-- Python `disk_type.replace("_ZRS", "_LRS")` on the character list: a
left-to-right, non-overlapping scan replacing every occurrence of the fixed
pattern `_ZRS`. -/
def replaceZRS : List Char → List Char
  | '_' :: 'Z' :: 'R' :: 'S' :: rest => '_' :: 'L' :: 'R' :: 'S' :: replaceZRS rest
  | c :: rest => c :: replaceZRS rest
  | [] => []

/-- Python `disk_type.replace("_ZRS", "_LRS")`. -/
def normalizeDiskType (s : String) : String := String.mk (replaceZRS s.data)

/-- Python `pat in s` on character lists (substring occurrence). -/
def subOccurs (pat : List Char) : List Char → Bool
  | [] => decide (pat = [])
  | c :: rest => pat.isPrefixOf (c :: rest) || subOccurs pat rest

/-- Python `pat in s` (substring containment test on strings). -/
def strContains (s pat : String) : Bool := subOccurs pat.data s.data

/-- Python `s.startswith(pat)`. -/
def strStartsWith (s pat : String) : Bool := pat.data.isPrefixOf s.data

/-- The size-table selection of `DiskMapper.get_tier_from_size`
(utils.py lines 118-127), including the `_ZRS` → `_LRS` normalization. -/
def sizesForDiskType (disk_type : String) : Option (List (Nat × String)) :=
  let dt := normalizeDiskType disk_type
  if dt = "Premium_LRS" then some PREMIUM_DISK_SIZES
  else if dt = "StandardSSD_LRS" then some STANDARD_SSD_SIZES
  else if dt = "Standard_LRS" then some STANDARD_HDD_SIZES
  else none

/-- The capacity of the tier that `DiskMapper.get_tier_from_size` resolves
`size_gb` to: `sorted(sizes.keys())` of the ascending tables is the key list
itself. -/
def tierCapacity (size_gb : Nat) (disk_type : String) : Option Nat :=
  match sizesForDiskType disk_type with
  | none => none
  | some sizes => nextAtOrAbove (dictKeys sizes) size_gb

/-- `DiskMapper.get_tier_from_size` (utils.py lines 107-132). -/
def get_tier_from_size (size_gb : Nat) (disk_type : String) : Option String :=
  match sizesForDiskType disk_type with
  | none => none
  | some sizes =>
    match nextAtOrAbove (dictKeys sizes) size_gb with
    | none => none
    | some target => List.lookup target sizes

/-! ### Round-up lemmas -/

theorem nextAtOrAbove_mem {l : List Nat} {c t : Nat}
    (h : nextAtOrAbove l c = some t) : t ∈ l := by
  unfold nextAtOrAbove at h
  cases hf : l.find? (fun s => decide (c ≤ s)) with
  | some s =>
    rw [hf] at h
    cases h
    exact List.mem_of_find?_eq_some hf
  | none =>
    rw [hf] at h
    rcases List.mem_getLast?_eq_getLast (Option.mem_def.mpr h) with ⟨hne, ht⟩
    exact ht ▸ List.getLast_mem hne

theorem nextAtOrAbove_cons_cons {s r : Nat} {rest : List Nat} {c : Nat}
    (h : ¬ c ≤ s) :
    nextAtOrAbove (s :: r :: rest) c = nextAtOrAbove (r :: rest) c := by
  unfold nextAtOrAbove
  rw [List.find?_cons_of_neg _ (by simpa using h)]
  rfl

theorem nextAtOrAbove_mono : ∀ (l : List Nat), l.Sorted (· ≤ ·) →
    ∀ (c1 c2 t1 t2 : Nat), c1 ≤ c2 →
    nextAtOrAbove l c1 = some t1 → nextAtOrAbove l c2 = some t2 → t1 ≤ t2
  | [], _, c1, c2, t1, t2, _, h1, _ => by
    simp [nextAtOrAbove] at h1
  | s :: rest, hs, c1, c2, t1, t2, hc, h1, h2 => by
    rw [List.sorted_cons] at hs
    by_cases hc2 : c2 ≤ s
    · have hc1 : c1 ≤ s := le_trans hc hc2
      unfold nextAtOrAbove at h1 h2
      rw [List.find?_cons_of_pos _ (by simpa using hc1)] at h1
      rw [List.find?_cons_of_pos _ (by simpa using hc2)] at h2
      cases h1; cases h2; exact le_refl _
    · by_cases hc1 : c1 ≤ s
      · -- t1 = s, and t2 is a member of s :: rest, all ≥ s
        unfold nextAtOrAbove at h1
        rw [List.find?_cons_of_pos _ (by simpa using hc1)] at h1
        cases h1
        have hmem := nextAtOrAbove_mem h2
        rcases List.mem_cons.mp hmem with he | hm
        · exact le_of_eq he.symm
        · exact hs.1 _ hm
      · cases rest with
        | nil =>
          unfold nextAtOrAbove at h1 h2
          rw [List.find?_cons_of_neg _ (by simpa using hc1)] at h1
          rw [List.find?_cons_of_neg _ (by simpa using hc2)] at h2
          simp [List.find?] at h1 h2
          omega
        | cons r rs =>
          rw [nextAtOrAbove_cons_cons hc1] at h1
          rw [nextAtOrAbove_cons_cons hc2] at h2
          exact nextAtOrAbove_mono (r :: rs) hs.2 c1 c2 t1 t2 hc h1 h2

theorem nextAtOrAbove_of_all_lt {l : List Nat} {c : Nat}
    (h : ∀ x ∈ l, x < c) : nextAtOrAbove l c = l.getLast? := by
  unfold nextAtOrAbove
  rw [List.find?_eq_none.mpr]
  intro x hx
  simpa using Nat.not_le.mpr (h x hx)

theorem sizesForDiskType_cases (dt : String) :
    sizesForDiskType dt = none ∨ sizesForDiskType dt = some PREMIUM_DISK_SIZES ∨
    sizesForDiskType dt = some STANDARD_SSD_SIZES ∨
    sizesForDiskType dt = some STANDARD_HDD_SIZES := by
  unfold sizesForDiskType
  by_cases h1 : normalizeDiskType dt = "Premium_LRS" <;>
    by_cases h2 : normalizeDiskType dt = "StandardSSD_LRS" <;>
    by_cases h3 : normalizeDiskType dt = "Standard_LRS" <;>
    simp [h1, h2, h3]

theorem premium_keys_le : ∀ x ∈ dictKeys PREMIUM_DISK_SIZES, x ≤ 32767 := by decide

theorem ssd_keys_le : ∀ x ∈ dictKeys STANDARD_SSD_SIZES, x ≤ 32767 := by decide

theorem hdd_keys_le : ∀ x ∈ dictKeys STANDARD_HDD_SIZES, x ≤ 32767 := by decide

example : get_tier_from_size 100 "Premium_LRS" = some "P10" := by decide
example : get_tier_from_size 100 "Premium_ZRS" = some "P10" := by decide
example : tierCapacity 100 "Premium_LRS" = some 128 := by decide
example : get_tier_from_size 100 "Foo" = none := by decide

/-- C3: the claim that the three storage-family tier tables contain exactly
the same capacity breakpoints is false: 16 is a breakpoint of the Premium and
Standard-SSD tables but not of the Standard-HDD table. -/
theorem C3_counterexample :
    16 ∈ dictKeys PREMIUM_DISK_SIZES ∧ 16 ∈ dictKeys STANDARD_SSD_SIZES ∧
    16 ∉ dictKeys STANDARD_HDD_SIZES := by decide

/-- C3 (amended): the Premium and Standard-SSD tables contain identical
capacity breakpoints; the Standard-HDD table contains the same breakpoints
except that it omits 4, 8 and 16 (its smallest tier is 32). -/
theorem C3_breakpoint_tables :
    dictKeys PREMIUM_DISK_SIZES = dictKeys STANDARD_SSD_SIZES ∧
    dictKeys STANDARD_HDD_SIZES = (dictKeys PREMIUM_DISK_SIZES).drop 3 ∧
    (dictKeys PREMIUM_DISK_SIZES).take 3 = [4, 8, 16] := by decide

/-- C9: tier rounding is monotone — for capacities `c1 ≤ c2` in the same
storage family the resolved tier capacities satisfy `t1 ≤ t2` — and any
capacity exceeding the largest breakpoint (32767) resolves to the largest
tier of the family instead of failing. -/
theorem C9_tier_monotone_and_clamp :
    (∀ (disk_type : String) (c1 c2 t1 t2 : Nat), c1 ≤ c2 →
      tierCapacity c1 disk_type = some t1 → tierCapacity c2 disk_type = some t2 →
      t1 ≤ t2) ∧
    (∀ c : Nat, 32767 < c →
      get_tier_from_size c "Premium_LRS" = some "P80" ∧
      get_tier_from_size c "StandardSSD_LRS" = some "E80" ∧
      get_tier_from_size c "Standard_LRS" = some "S80") := by
  constructor
  · intro dt c1 c2 t1 t2 hc h1 h2
    unfold tierCapacity at h1 h2
    rcases sizesForDiskType_cases dt with h | h | h | h <;> rw [h] at h1 h2
    · exact absurd h1 (by simp)
    · exact nextAtOrAbove_mono _ (by decide) _ _ _ _ hc h1 h2
    · exact nextAtOrAbove_mono _ (by decide) _ _ _ _ hc h1 h2
    · exact nextAtOrAbove_mono _ (by decide) _ _ _ _ hc h1 h2
  · intro c hc
    refine ⟨?_, ?_, ?_⟩
    · have hs : sizesForDiskType "Premium_LRS" = some PREMIUM_DISK_SIZES := by decide
      simp only [get_tier_from_size, hs]
      rw [nextAtOrAbove_of_all_lt (fun x hx => lt_of_le_of_lt (premium_keys_le x hx) hc)]
      decide
    · have hs : sizesForDiskType "StandardSSD_LRS" = some STANDARD_SSD_SIZES := by decide
      simp only [get_tier_from_size, hs]
      rw [nextAtOrAbove_of_all_lt (fun x hx => lt_of_le_of_lt (ssd_keys_le x hx) hc)]
      decide
    · have hs : sizesForDiskType "Standard_LRS" = some STANDARD_HDD_SIZES := by decide
      simp only [get_tier_from_size, hs]
      rw [nextAtOrAbove_of_all_lt (fun x hx => lt_of_le_of_lt (hdd_keys_le x hx) hc)]
      decide

/-! ### Compute inventory and the query planner
(src/azsm/azsm/pricing_client.py, `_get_vm_pricing` lines 79-92)

A Python `set` is an unordered collection of distinct elements; it is
modelled as `List.dedup` of the comprehension's list.  The nested
region/size loops produce exactly `List.product` of the two deduplicated
lists. -/

structure VmResource where
  name : String
  location : String
  vm_size : String
  os_type : String
deriving DecidableEq

def vmQueryPlan (vms : List VmResource) : List (String × String) :=
  let vm_regions := (vms.map (fun vm => vm.location)).dedup
  let vm_sizes := (vms.map (fun vm => vm.vm_size)).dedup
  List.product vm_regions vm_sizes

/-! ### Compute pricing reconciliation
(src/azsm/azsm/pricing_client.py, `_get_vm_pricing` lines 96-172)

A raw catalog item carries a product name, a price type, a meter name, a
retail price and, optionally, a `savingsPlan` list of (term, retailPrice)
entries; `Option` models presence of the `savingsPlan` key. -/

structure SavingsPlanEntry where
  term : String
  retailPrice : ℚ
deriving DecidableEq

structure VmRawItem where
  productName : String
  type : String
  meterName : String
  retailPrice : ℚ
  savingsPlan : Option (List SavingsPlanEntry)
deriving DecidableEq

structure WindowsPricing where
  pay_as_you_go : Option ℚ := none
  low_priority : Option ℚ := none
  spot : Option ℚ := none
  savings_plan_1yr : Option ℚ := none
  savings_plan_3yr : Option ℚ := none
  hybrid_benefit : Option ℚ := none
  hybrid_savings_plan_1yr : Option ℚ := none
  hybrid_savings_plan_3yr : Option ℚ := none
deriving DecidableEq

structure LinuxPricing where
  pay_as_you_go : Option ℚ := none
  low_priority : Option ℚ := none
  spot : Option ℚ := none
  savings_plan_1yr : Option ℚ := none
  savings_plan_3yr : Option ℚ := none
deriving DecidableEq

structure VmPricingResult where
  windows : WindowsPricing := {}
  linux : LinuxPricing := {}
deriving DecidableEq

/-- Fold state of `_get_vm_pricing`: the pricing result under construction
plus the two locally tracked base prices (lines 118-119). -/
structure VmFoldState where
  result : VmPricingResult := {}
  linux_base_price : Option ℚ := none
  windows_base_price : Option ℚ := none
deriving DecidableEq

/-- The static Windows license surcharge table
(`PricingClient.windows_license_cost`, lines 52-54). -/
def windows_license_cost : List (String × ℚ) := [("Standard_D4as_v5", 0.184)]

/-- Python `self.windows_license_cost.get(vm_size, 0)`. -/
def windowsLicense (vm_size : String) : ℚ :=
  (List.lookup vm_size windows_license_cost).getD 0

/-- Python truthiness of an optional float: `None` and `0.0` are falsy. -/
def truthyOpt : Option ℚ → Bool
  | none => false
  | some q => decide (q ≠ 0)

/-- One savings-plan entry of a Linux item (lines 146-158): store the Linux
price and derive the Windows price by adding the license surcharge. -/
def applySavingsPlan (vm_size : String) (st : VmFoldState) (p : SavingsPlanEntry) :
    VmFoldState :=
  if p.term = "1 Year" then
    { st with result :=
      { st.result with
        linux := { st.result.linux with savings_plan_1yr := some p.retailPrice },
        windows := { st.result.windows with
          savings_plan_1yr := some (p.retailPrice + windowsLicense vm_size) } } }
  else if p.term = "3 Years" then
    { st with result :=
      { st.result with
        linux := { st.result.linux with savings_plan_3yr := some p.retailPrice },
        windows := { st.result.windows with
          savings_plan_3yr := some (p.retailPrice + windowsLicense vm_size) } } }
  else st

/-- The `Consumption` handling of one item (lines 129-140): classify by the
meter name into spot / low-priority / standard, store under the item's OS
family, and track the base price for the standard case. -/
def vmConsumptionStep (st : VmFoldState) (item : VmRawItem) : VmFoldState :=
  if item.type = "Consumption" then
    if strContains item.meterName "Spot" then
      if strContains item.productName "Windows" then
        { st with result := { st.result with
            windows := { st.result.windows with spot := some item.retailPrice } } }
      else
        { st with result := { st.result with
            linux := { st.result.linux with spot := some item.retailPrice } } }
    else if strContains item.meterName "Low Priority" then
      if strContains item.productName "Windows" then
        { st with result := { st.result with
            windows := { st.result.windows with low_priority := some item.retailPrice } } }
      else
        { st with result := { st.result with
            linux := { st.result.linux with low_priority := some item.retailPrice } } }
    else
      if strContains item.productName "Windows" then
        { st with
          result := { st.result with
            windows := { st.result.windows with pay_as_you_go := some item.retailPrice } },
          windows_base_price := some item.retailPrice }
      else
        { st with
          result := { st.result with
            linux := { st.result.linux with pay_as_you_go := some item.retailPrice } },
          linux_base_price := some item.retailPrice }
  else st

/-- One catalog item of `_get_vm_pricing` (lines 121-158): skip dev-test
items, apply the consumption handling, then the savings-plan handling (which
only reads items of the Linux OS family). -/
def processVmItem (vm_size : String) (st : VmFoldState) (item : VmRawItem) :
    VmFoldState :=
  if item.type = "DevTestConsumption" then st
  else
    match item.savingsPlan with
    | none => vmConsumptionStep st item
    | some plans =>
      if strContains item.productName "Windows" then vmConsumptionStep st item
      else plans.foldl (applySavingsPlan vm_size) (vmConsumptionStep st item)

/-- Line 167-168: `if pricing_result["linux"]["savings_plan_1yr"]:` copy the
Linux 1-year commitment price into the hybrid slot. -/
def setHybrid1 (r : VmPricingResult) : VmPricingResult :=
  if truthyOpt r.linux.savings_plan_1yr then
    { r with windows :=
      { r.windows with hybrid_savings_plan_1yr := r.linux.savings_plan_1yr } }
  else r

/-- Line 169-170: the 3-year analogue of `setHybrid1`. -/
def setHybrid3 (r : VmPricingResult) : VmPricingResult :=
  if truthyOpt r.linux.savings_plan_3yr then
    { r with windows :=
      { r.windows with hybrid_savings_plan_3yr := r.linux.savings_plan_3yr } }
  else r

/-- The hybrid-benefit derivation after all items are processed
(lines 160-170).  Python `if windows_base_price and linux_base_price:` is
truthiness on both floats. -/
def finalizeVm (st : VmFoldState) : VmPricingResult :=
  if truthyOpt st.windows_base_price && truthyOpt st.linux_base_price then
    setHybrid3 (setHybrid1
      { st.result with
        windows := { st.result.windows with hybrid_benefit := st.linux_base_price } })
  else st.result

def reconcileVmState (vm_size : String) (items : List VmRawItem) : VmFoldState :=
  items.foldl (processVmItem vm_size) {}

/-- Full compute reconciliation of one (region, size) query result. -/
def reconcileVm (vm_size : String) (items : List VmRawItem) : VmPricingResult :=
  finalizeVm (reconcileVmState vm_size items)

/-- C9 witness: the monotonicity theorem applied at capacities 100 ≤ 200 in
the Premium family (tiers 128 and 256), and the clamp at capacity 32768. -/
theorem C9_witness :
    tierCapacity 100 "Premium_LRS" = some 128 ∧
    tierCapacity 200 "Premium_LRS" = some 256 ∧
    (128 : Nat) ≤ 256 ∧
    get_tier_from_size 32768 "Standard_LRS" = some "S80" := by
  refine ⟨by decide, by decide, ?_, ?_⟩
  · exact C9_tier_monotone_and_clamp.1 "Premium_LRS" 100 200 128 256
      (by decide) (by decide) (by decide)
  · exact (C9_tier_monotone_and_clamp.2 32768 (by decide)).2.2

/-- C8: the compute query plan is exactly the cross-product of the distinct
regions and the distinct size classes of the inventory, with exactly one
query per unique (region, size) pair no matter how many resources share the
pair. -/
theorem C8_query_plan_cross_product :
    ∀ (vms : List VmResource) (r s : String),
    (vmQueryPlan vms).Nodup ∧
    ((r, s) ∈ vmQueryPlan vms ↔
      r ∈ vms.map (fun vm => vm.location) ∧ s ∈ vms.map (fun vm => vm.vm_size)) := by
  intro vms r s
  refine ⟨List.Nodup.product (List.nodup_dedup _) (List.nodup_dedup _), ?_⟩
  simp [vmQueryPlan, List.mem_product]

/-! ### Reconciliation invariants -/

/-- The locally tracked base prices coincide with the stored standard
ongoing slots. -/
def basesTrack (st : VmFoldState) : Prop :=
  st.linux_base_price = st.result.linux.pay_as_you_go ∧
  st.windows_base_price = st.result.windows.pay_as_you_go

/-- The Windows commitment slots are always the Linux slots plus the static
license surcharge. -/
def derivedWindowsSp (vm_size : String) (st : VmFoldState) : Prop :=
  st.result.windows.savings_plan_1yr =
    st.result.linux.savings_plan_1yr.map (fun q => q + windowsLicense vm_size) ∧
  st.result.windows.savings_plan_3yr =
    st.result.linux.savings_plan_3yr.map (fun q => q + windowsLicense vm_size)

theorem applySavingsPlan_fields (vm_size : String) (st : VmFoldState)
    (p : SavingsPlanEntry) :
    (applySavingsPlan vm_size st p).linux_base_price = st.linux_base_price ∧
    (applySavingsPlan vm_size st p).windows_base_price = st.windows_base_price ∧
    (applySavingsPlan vm_size st p).result.linux.pay_as_you_go =
      st.result.linux.pay_as_you_go ∧
    (applySavingsPlan vm_size st p).result.windows.pay_as_you_go =
      st.result.windows.pay_as_you_go := by
  unfold applySavingsPlan
  split_ifs <;> simp

theorem foldSavings_fields (vm_size : String) (plans : List SavingsPlanEntry) :
    ∀ st : VmFoldState,
    (plans.foldl (applySavingsPlan vm_size) st).linux_base_price =
      st.linux_base_price ∧
    (plans.foldl (applySavingsPlan vm_size) st).windows_base_price =
      st.windows_base_price ∧
    (plans.foldl (applySavingsPlan vm_size) st).result.linux.pay_as_you_go =
      st.result.linux.pay_as_you_go ∧
    (plans.foldl (applySavingsPlan vm_size) st).result.windows.pay_as_you_go =
      st.result.windows.pay_as_you_go := by
  induction plans with
  | nil => intro st; exact ⟨rfl, rfl, rfl, rfl⟩
  | cons p ps ih =>
    intro st
    rw [List.foldl_cons]
    have h1 := applySavingsPlan_fields vm_size st p
    have h2 := ih (applySavingsPlan vm_size st p)
    exact ⟨h2.1.trans h1.1, h2.2.1.trans h1.2.1, h2.2.2.1.trans h1.2.2.1,
      h2.2.2.2.trans h1.2.2.2⟩

theorem vmConsumptionStep_bases (st : VmFoldState) (item : VmRawItem)
    (h : basesTrack st) : basesTrack (vmConsumptionStep st item) := by
  obtain ⟨h1, h2⟩ := h
  unfold basesTrack vmConsumptionStep
  split_ifs <;> simp_all

theorem processVmItem_bases (vm_size : String) (st : VmFoldState)
    (item : VmRawItem) (h : basesTrack st) :
    basesTrack (processVmItem vm_size st item) := by
  unfold processVmItem
  split_ifs with hdev hwin
  · exact h
  · cases item.savingsPlan <;> exact vmConsumptionStep_bases st item h
  · cases item.savingsPlan with
    | none => exact vmConsumptionStep_bases st item h
    | some plans =>
      have hb := vmConsumptionStep_bases st item h
      have hf := foldSavings_fields vm_size plans (vmConsumptionStep st item)
      exact ⟨hf.1.trans (hb.1.trans hf.2.2.1.symm),
        hf.2.1.trans (hb.2.trans hf.2.2.2.symm)⟩

theorem reconcileVmState_bases (vm_size : String) (items : List VmRawItem) :
    basesTrack (reconcileVmState vm_size items) := by
  unfold reconcileVmState
  have hgen : ∀ (l : List VmRawItem) (st : VmFoldState), basesTrack st →
      basesTrack (l.foldl (processVmItem vm_size) st) := by
    intro l
    induction l with
    | nil => intro st h; exact h
    | cons a l ih =>
      intro st h
      rw [List.foldl_cons]
      exact ih _ (processVmItem_bases vm_size st a h)
  exact hgen items {} ⟨rfl, rfl⟩

theorem setHybrid1_fields (r : VmPricingResult) :
    (setHybrid1 r).linux.pay_as_you_go = r.linux.pay_as_you_go ∧
    (setHybrid1 r).windows.pay_as_you_go = r.windows.pay_as_you_go ∧
    (setHybrid1 r).linux.savings_plan_1yr = r.linux.savings_plan_1yr ∧
    (setHybrid1 r).windows.savings_plan_1yr = r.windows.savings_plan_1yr ∧
    (setHybrid1 r).linux.savings_plan_3yr = r.linux.savings_plan_3yr ∧
    (setHybrid1 r).windows.savings_plan_3yr = r.windows.savings_plan_3yr ∧
    (setHybrid1 r).windows.hybrid_benefit = r.windows.hybrid_benefit := by
  unfold setHybrid1
  split_ifs <;> simp

theorem setHybrid3_fields (r : VmPricingResult) :
    (setHybrid3 r).linux.pay_as_you_go = r.linux.pay_as_you_go ∧
    (setHybrid3 r).windows.pay_as_you_go = r.windows.pay_as_you_go ∧
    (setHybrid3 r).linux.savings_plan_1yr = r.linux.savings_plan_1yr ∧
    (setHybrid3 r).windows.savings_plan_1yr = r.windows.savings_plan_1yr ∧
    (setHybrid3 r).linux.savings_plan_3yr = r.linux.savings_plan_3yr ∧
    (setHybrid3 r).windows.savings_plan_3yr = r.windows.savings_plan_3yr ∧
    (setHybrid3 r).windows.hybrid_benefit = r.windows.hybrid_benefit := by
  unfold setHybrid3
  split_ifs <;> simp

theorem finalizeVm_fields (st : VmFoldState) :
    (finalizeVm st).linux.pay_as_you_go = st.result.linux.pay_as_you_go ∧
    (finalizeVm st).windows.pay_as_you_go = st.result.windows.pay_as_you_go ∧
    (finalizeVm st).linux.savings_plan_1yr = st.result.linux.savings_plan_1yr ∧
    (finalizeVm st).windows.savings_plan_1yr = st.result.windows.savings_plan_1yr ∧
    (finalizeVm st).linux.savings_plan_3yr = st.result.linux.savings_plan_3yr ∧
    (finalizeVm st).windows.savings_plan_3yr = st.result.windows.savings_plan_3yr := by
  unfold finalizeVm
  split_ifs
  · have h1 := setHybrid1_fields
      { st.result with
        windows := { st.result.windows with hybrid_benefit := st.linux_base_price } }
    have h3 := setHybrid3_fields (setHybrid1
      { st.result with
        windows := { st.result.windows with hybrid_benefit := st.linux_base_price } })
    refine ⟨h3.1.trans (h1.1.trans (by simp)), h3.2.1.trans (h1.2.1.trans (by simp)),
      h3.2.2.1.trans (h1.2.2.1.trans (by simp)),
      h3.2.2.2.1.trans (h1.2.2.2.1.trans (by simp)),
      h3.2.2.2.2.1.trans (h1.2.2.2.2.1.trans (by simp)),
      h3.2.2.2.2.2.1.trans (h1.2.2.2.2.2.1.trans (by simp))⟩
  · exact ⟨rfl, rfl, rfl, rfl, rfl, rfl⟩

theorem finalizeVm_hybrid (st : VmFoldState)
    (hw : truthyOpt st.windows_base_price = true)
    (hl : truthyOpt st.linux_base_price = true) :
    (finalizeVm st).windows.hybrid_benefit = st.linux_base_price := by
  unfold finalizeVm
  rw [hw, hl]
  have h1 := setHybrid1_fields
    { st.result with
      windows := { st.result.windows with hybrid_benefit := st.linux_base_price } }
  have h3 := setHybrid3_fields (setHybrid1
    { st.result with
      windows := { st.result.windows with hybrid_benefit := st.linux_base_price } })
  simp only [Bool.and_self, if_true]
  exact h3.2.2.2.2.2.2.trans (h1.2.2.2.2.2.2.trans (by simp))

/-- C4 (amended): whenever both OS-family base prices are observed with
nonzero values, the reconciled hybrid-benefit base price equals the Linux
(bring-your-own) base price exactly.  (With a zero observed base price the
Python truthiness guard skips the derivation; see the counterexample.) -/
theorem C4_hybrid_benefit_eq_byo_base (vm_size : String) (items : List VmRawItem)
    (b w : ℚ)
    (hb : (reconcileVm vm_size items).linux.pay_as_you_go = some b) (hb0 : b ≠ 0)
    (hw : (reconcileVm vm_size items).windows.pay_as_you_go = some w) (hw0 : w ≠ 0) :
    (reconcileVm vm_size items).windows.hybrid_benefit = some b := by
  have hbt := reconcileVmState_bases vm_size items
  have hpg := finalizeVm_fields (reconcileVmState vm_size items)
  have hb2 : (finalizeVm (reconcileVmState vm_size items)).linux.pay_as_you_go
      = some b := hb
  have hw2 : (finalizeVm (reconcileVmState vm_size items)).windows.pay_as_you_go
      = some w := hw
  have hl : (reconcileVmState vm_size items).linux_base_price = some b :=
    hbt.1.trans (hpg.1.symm.trans hb2)
  have hwb : (reconcileVmState vm_size items).windows_base_price = some w :=
    hbt.2.trans (hpg.2.1.symm.trans hw2)
  have h1 : truthyOpt (reconcileVmState vm_size items).linux_base_price = true := by
    rw [hl]; simp [truthyOpt, hb0]
  have h2 : truthyOpt (reconcileVmState vm_size items).windows_base_price = true := by
    rw [hwb]; simp [truthyOpt, hw0]
  show (finalizeVm (reconcileVmState vm_size items)).windows.hybrid_benefit = some b
  exact (finalizeVm_hybrid (reconcileVmState vm_size items) h2 h1).trans hl

/-- C4 counterexample: with a Linux base price of 0 observed and a Windows
base price of 5 observed, the reconciliation leaves the hybrid-benefit
slot empty (Python truthiness treats the observed 0.0 as false), so the
claim "both observed implies hybrid equals the bring-your-own base" fails. -/
theorem C4_counterexample :
    (reconcileVm "Standard_D4s_v3"
      [⟨"Virtual Machines Dv3 Series", "Consumption", "D4 v3", 0, none⟩,
       ⟨"Virtual Machines Dv3 Series Windows", "Consumption", "D4 v3", 5, none⟩]
      ).linux.pay_as_you_go = some 0 ∧
    (reconcileVm "Standard_D4s_v3"
      [⟨"Virtual Machines Dv3 Series", "Consumption", "D4 v3", 0, none⟩,
       ⟨"Virtual Machines Dv3 Series Windows", "Consumption", "D4 v3", 5, none⟩]
      ).windows.pay_as_you_go = some 5 ∧
    (reconcileVm "Standard_D4s_v3"
      [⟨"Virtual Machines Dv3 Series", "Consumption", "D4 v3", 0, none⟩,
       ⟨"Virtual Machines Dv3 Series Windows", "Consumption", "D4 v3", 5, none⟩]
      ).windows.hybrid_benefit = none := by decide

/-- C4 witness: the amended theorem applied to a concrete reconciliation —
Linux base 2, Windows base 3 — yields hybrid-benefit 2. -/
theorem C4_witness :
    (reconcileVm "Standard_D4s_v3"
      [⟨"Virtual Machines Dv3 Series", "Consumption", "D4 v3", 2, none⟩,
       ⟨"Virtual Machines Dv3 Series Windows", "Consumption", "D4 v3", 3, none⟩]
      ).windows.hybrid_benefit = some 2 :=
  C4_hybrid_benefit_eq_byo_base "Standard_D4s_v3"
    [⟨"Virtual Machines Dv3 Series", "Consumption", "D4 v3", 2, none⟩,
     ⟨"Virtual Machines Dv3 Series Windows", "Consumption", "D4 v3", 3, none⟩]
    2 3 (by decide) (by decide) (by decide) (by decide)

theorem applySavingsPlan_derived (vm_size : String) (st : VmFoldState)
    (p : SavingsPlanEntry) (h : derivedWindowsSp vm_size st) :
    derivedWindowsSp vm_size (applySavingsPlan vm_size st p) := by
  obtain ⟨h1, h3⟩ := h
  unfold derivedWindowsSp applySavingsPlan
  split_ifs <;> simp_all

theorem foldSavings_derived (vm_size : String) (plans : List SavingsPlanEntry) :
    ∀ st : VmFoldState, derivedWindowsSp vm_size st →
    derivedWindowsSp vm_size (plans.foldl (applySavingsPlan vm_size) st) := by
  induction plans with
  | nil => intro st h; exact h
  | cons p ps ih =>
    intro st h
    rw [List.foldl_cons]
    exact ih _ (applySavingsPlan_derived vm_size st p h)

theorem vmConsumptionStep_sp (st : VmFoldState) (item : VmRawItem) :
    (vmConsumptionStep st item).result.linux.savings_plan_1yr =
      st.result.linux.savings_plan_1yr ∧
    (vmConsumptionStep st item).result.windows.savings_plan_1yr =
      st.result.windows.savings_plan_1yr ∧
    (vmConsumptionStep st item).result.linux.savings_plan_3yr =
      st.result.linux.savings_plan_3yr ∧
    (vmConsumptionStep st item).result.windows.savings_plan_3yr =
      st.result.windows.savings_plan_3yr := by
  unfold vmConsumptionStep
  split_ifs <;> simp

theorem vmConsumptionStep_derived (vm_size : String) (st : VmFoldState)
    (item : VmRawItem) (h : derivedWindowsSp vm_size st) :
    derivedWindowsSp vm_size (vmConsumptionStep st item) := by
  obtain ⟨h1, h3⟩ := h
  have hs := vmConsumptionStep_sp st item
  exact ⟨hs.2.1.trans (h1.trans (congrArg _ hs.1.symm)),
    hs.2.2.2.trans (h3.trans (congrArg _ hs.2.2.1.symm))⟩

theorem processVmItem_derived (vm_size : String) (st : VmFoldState)
    (item : VmRawItem) (h : derivedWindowsSp vm_size st) :
    derivedWindowsSp vm_size (processVmItem vm_size st item) := by
  unfold processVmItem
  split_ifs with hdev hwin
  · exact h
  · cases item.savingsPlan <;> exact vmConsumptionStep_derived vm_size st item h
  · cases item.savingsPlan with
    | none => exact vmConsumptionStep_derived vm_size st item h
    | some plans =>
      exact foldSavings_derived vm_size plans _
        (vmConsumptionStep_derived vm_size st item h)

theorem reconcileVmState_derived (vm_size : String) (items : List VmRawItem) :
    derivedWindowsSp vm_size (reconcileVmState vm_size items) := by
  unfold reconcileVmState
  have hgen : ∀ (l : List VmRawItem) (st : VmFoldState), derivedWindowsSp vm_size st →
      derivedWindowsSp vm_size (l.foldl (processVmItem vm_size) st) := by
    intro l
    induction l with
    | nil => intro st h; exact h
    | cons a l ih =>
      intro st h
      rw [List.foldl_cons]
      exact ih _ (processVmItem_derived vm_size st a h)
  exact hgen items {} ⟨rfl, rfl⟩

/-- C5: the license-included (Windows) commitment slots are never read from
catalog records — they always equal the bring-your-own (Linux) slot for the
same term plus the static per-size-class license surcharge (in particular
they are absent exactly when the Linux slot is absent), and the surcharge of
a size class absent from the static table is zero. -/
theorem C5_windows_commitments_derived (vm_size : String) (items : List VmRawItem) :
    (reconcileVm vm_size items).windows.savings_plan_1yr =
      ((reconcileVm vm_size items).linux.savings_plan_1yr).map
        (fun q => q + windowsLicense vm_size) ∧
    (reconcileVm vm_size items).windows.savings_plan_3yr =
      ((reconcileVm vm_size items).linux.savings_plan_3yr).map
        (fun q => q + windowsLicense vm_size) ∧
    (∀ sz : String, List.lookup sz windows_license_cost = none →
      windowsLicense sz = 0) := by
  have hd := reconcileVmState_derived vm_size items
  have hf := finalizeVm_fields (reconcileVmState vm_size items)
  refine ⟨?_, ?_, ?_⟩
  · show (finalizeVm (reconcileVmState vm_size items)).windows.savings_plan_1yr =
      ((finalizeVm (reconcileVmState vm_size items)).linux.savings_plan_1yr).map
        (fun q => q + windowsLicense vm_size)
    rw [hf.2.2.2.1, hf.2.2.1]
    exact hd.1
  · show (finalizeVm (reconcileVmState vm_size items)).windows.savings_plan_3yr =
      ((finalizeVm (reconcileVmState vm_size items)).linux.savings_plan_3yr).map
        (fun q => q + windowsLicense vm_size)
    rw [hf.2.2.2.2.2, hf.2.2.2.2.1]
    exact hd.2
  · intro sz hz
    unfold windowsLicense
    rw [hz]
    rfl

/-- C5 witness: the theorem applied to a catalog with one Linux item carrying
a 1-year commitment entry, for a size class in the surcharge table, and the
zero-surcharge conjunct applied to a size class absent from the table. -/
theorem C5_witness :
    ((reconcileVm "Standard_D4as_v5"
        [⟨"Virtual Machines Dasv5 Series", "Consumption", "D4as v5", 2,
          some [⟨"1 Year", 1⟩]⟩]).windows.savings_plan_1yr =
      ((reconcileVm "Standard_D4as_v5"
        [⟨"Virtual Machines Dasv5 Series", "Consumption", "D4as v5", 2,
          some [⟨"1 Year", 1⟩]⟩]).linux.savings_plan_1yr).map
        (fun q => q + windowsLicense "Standard_D4as_v5")) ∧
    windowsLicense "Standard_D8s_v3" = 0 := by
  have h := C5_windows_commitments_derived "Standard_D4as_v5"
    [⟨"Virtual Machines Dasv5 Series", "Consumption", "D4as v5", 2,
      some [⟨"1 Year", 1⟩]⟩]
  exact ⟨h.1, h.2.2 "Standard_D8s_v3" (by decide)⟩

/-! ### Volume pricing reconciliation
(src/azsm/azsm/pricing_client.py, `_get_disk_pricing` lines 226-277)

A raw storage catalog record carries a price type, an optional reservation
term and a retail price.  The per-(region, sku) pricing structure holds the
pay-as-you-go and the 1-year-reserved maps, both keyed by disk size. -/

structure DiskRawItem where
  type : String
  reservationTerm : Option String
  retailPrice : ℚ
deriving DecidableEq

structure DiskPricingEntry where
  pay_as_you_go : List (Nat × ℚ) := []
  reserved : List (Nat × ℚ) := []
deriving DecidableEq

/-- Python dict assignment `m[k] = v` on an association list: overwrite an
existing binding in place, otherwise append a new binding. -/
def dictSet (m : List (Nat × ℚ)) (k : Nat) (v : ℚ) : List (Nat × ℚ) :=
  if (List.lookup k m).isSome then
    m.map (fun p => if p.1 = k then (k, v) else p)
  else m ++ [(k, v)]

/-- One raw catalog record (lines 266-277): a `Consumption` price is stored
in the pay-as-you-go map and a 1-year `Reservation` price in the reserved
map — both under the declared `disk_size` as key. -/
def processDiskItem (disk_size : Nat) (e : DiskPricingEntry) (item : DiskRawItem) :
    DiskPricingEntry :=
  if item.type = "Consumption" then
    { e with pay_as_you_go := dictSet e.pay_as_you_go disk_size item.retailPrice }
  else if item.type = "Reservation" ∧ item.reservationTerm = some "1 Year" then
    { e with reserved := dictSet e.reserved disk_size item.retailPrice }
  else e

/-- The per-(sku, size) step of `_get_disk_pricing` (lines 226-277): when the
mapper resolves no tier for the pair, the pair is skipped with a warning
(`continue`, lines 229-231); otherwise the fetched records are folded into
the entry. -/
def processDiskSku (e : DiskPricingEntry) (disk_sku : String) (disk_size : Nat)
    (items : List DiskRawItem) : DiskPricingEntry :=
  match get_tier_from_size disk_size disk_sku with
  | none => e
  | some _ => items.foldl (processDiskItem disk_size) e

theorem lookup_cons_self2 {a : Nat} {b : ℚ} {rest : List (Nat × ℚ)} :
    List.lookup a ((a, b) :: rest) = some b := by
  simp [List.lookup]

theorem lookup_cons_ne2 {j a : Nat} {b : ℚ} {rest : List (Nat × ℚ)} (h : j ≠ a) :
    List.lookup j ((a, b) :: rest) = List.lookup j rest := by
  have hb : (j == a) = false := by simpa using h
  simp [List.lookup, hb]

theorem lookup_map_replace_ne {k j : Nat} {v : ℚ} (hj : j ≠ k) :
    ∀ m : List (Nat × ℚ),
    List.lookup j (m.map (fun p => if p.1 = k then (k, v) else p)) =
      List.lookup j m
  | [] => rfl
  | (c, d) :: rest => by
    have hrest := @lookup_map_replace_ne k j v hj rest
    by_cases hc : c = k
    · subst hc
      have hhead : (if ((c, d) : Nat × ℚ).1 = c then (c, v) else (c, d)) = (c, v) := by
        simp
      rw [List.map_cons, hhead, lookup_cons_ne2 hj, lookup_cons_ne2 hj]
      exact hrest
    · have hhead : (if ((c, d) : Nat × ℚ).1 = k then (k, v) else (c, d)) = (c, d) := by
        simp [hc]
      rw [List.map_cons, hhead]
      by_cases hjc : j = c
      · subst hjc
        rw [lookup_cons_self2, lookup_cons_self2]
      · rw [lookup_cons_ne2 hjc, lookup_cons_ne2 hjc]
        exact hrest

theorem dictSet_cons_ne {a k : Nat} {b v : ℚ} {rest : List (Nat × ℚ)}
    (h : a ≠ k) :
    dictSet ((a, b) :: rest) k v = (a, b) :: dictSet rest k v := by
  unfold dictSet
  rw [lookup_cons_ne2 (fun hh => h hh.symm)]
  split_ifs with hs
  · have hhead : (if ((a, b) : Nat × ℚ).1 = k then (k, v) else (a, b)) = (a, b) := by
      simp [h]
    rw [List.map_cons, hhead]
  · simp

theorem lookup_dictSet (k : Nat) (v : ℚ) (j : Nat) :
    ∀ m : List (Nat × ℚ),
    List.lookup j (dictSet m k v) = if j = k then some v else List.lookup j m
  | [] => by
    have h0 : dictSet [] k v = [(k, v)] := by simp [dictSet, List.lookup]
    rw [h0]
    by_cases hj : j = k
    · subst hj; rw [if_pos rfl, lookup_cons_self2]
    · rw [if_neg hj, lookup_cons_ne2 hj]
  | (a, b) :: rest => by
    by_cases hak : a = k
    · subst hak
      unfold dictSet
      rw [lookup_cons_self2,
        if_pos (show ((some b).isSome = true) from rfl), List.map_cons]
      have hhead : (if ((a, b) : Nat × ℚ).1 = a then (a, v) else (a, b)) = (a, v) := by
        simp
      rw [hhead]
      by_cases hj : j = a
      · subst hj; rw [if_pos rfl, lookup_cons_self2]
      · rw [if_neg hj, lookup_cons_ne2 hj, lookup_cons_ne2 hj]
        exact lookup_map_replace_ne hj rest
    · rw [dictSet_cons_ne hak]
      by_cases hj : j = a
      · subst hj
        rw [lookup_cons_self2, if_neg hak, lookup_cons_self2]
      · rw [lookup_cons_ne2 hj, lookup_cons_ne2 hj]
        exact lookup_dictSet k v j rest

theorem processDiskItem_lookup_ne (disk_size : Nat) (e : DiskPricingEntry)
    (item : DiskRawItem) (j : Nat) (hj : j ≠ disk_size) :
    List.lookup j (processDiskItem disk_size e item).pay_as_you_go =
      List.lookup j e.pay_as_you_go ∧
    List.lookup j (processDiskItem disk_size e item).reserved =
      List.lookup j e.reserved := by
  unfold processDiskItem
  split_ifs <;> simp [lookup_dictSet, hj]

theorem foldDiskItems_lookup_ne (disk_size : Nat) (j : Nat) (hj : j ≠ disk_size) :
    ∀ (items : List DiskRawItem) (e : DiskPricingEntry),
    List.lookup j ((items.foldl (processDiskItem disk_size) e)).pay_as_you_go =
      List.lookup j e.pay_as_you_go ∧
    List.lookup j ((items.foldl (processDiskItem disk_size) e)).reserved =
      List.lookup j e.reserved
  | [], e => ⟨rfl, rfl⟩
  | it :: rest, e => by
    rw [List.foldl_cons]
    have h1 := processDiskItem_lookup_ne disk_size e it j hj
    have h2 := foldDiskItems_lookup_ne disk_size j hj rest (processDiskItem disk_size e it)
    exact ⟨h2.1.trans h1.1, h2.2.trans h1.2⟩

theorem processDiskItem_payg_present (disk_size : Nat) (e : DiskPricingEntry)
    (item : DiskRawItem)
    (h : (List.lookup disk_size e.pay_as_you_go).isSome = true) :
    (List.lookup disk_size (processDiskItem disk_size e item).pay_as_you_go).isSome
      = true := by
  unfold processDiskItem
  split_ifs <;> simp [lookup_dictSet, h]

theorem foldDiskItems_payg_present (disk_size : Nat) :
    ∀ (items : List DiskRawItem) (e : DiskPricingEntry),
    ((∃ it ∈ items, it.type = "Consumption") ∨
      (List.lookup disk_size e.pay_as_you_go).isSome = true) →
    (List.lookup disk_size
      ((items.foldl (processDiskItem disk_size) e)).pay_as_you_go).isSome = true
  | [], e, h => by
    rcases h with h | h
    · simp at h
    · exact h
  | it :: rest, e, h => by
    rw [List.foldl_cons]
    rcases h with h | h
    · rcases h with ⟨it2, hmem, hty⟩
      rcases List.mem_cons.mp hmem with he | hm
    -- either the head is the Consumption item (then the key is set now and
    -- stays present), or it is in the tail
      · subst he
        apply foldDiskItems_payg_present disk_size rest
        right
        unfold processDiskItem
        rw [if_pos hty]
        simp [lookup_dictSet]
      · exact foldDiskItems_payg_present disk_size rest _ (Or.inl ⟨it2, hm, hty⟩)
    · exact foldDiskItems_payg_present disk_size rest _
        (Or.inr (processDiskItem_payg_present disk_size e it h))

theorem processDiskItem_reserved_present (disk_size : Nat)
    (e : DiskPricingEntry) (item : DiskRawItem)
    (h : (List.lookup disk_size e.reserved).isSome = true) :
    (List.lookup disk_size (processDiskItem disk_size e item).reserved).isSome
      = true := by
  unfold processDiskItem
  split_ifs <;> simp [lookup_dictSet, h]

theorem foldDiskItems_reserved_present (disk_size : Nat) :
    ∀ (items : List DiskRawItem) (e : DiskPricingEntry),
    ((∃ it ∈ items, it.type = "Reservation" ∧
        it.reservationTerm = some "1 Year") ∨
      (List.lookup disk_size e.reserved).isSome = true) →
    (List.lookup disk_size
      ((items.foldl (processDiskItem disk_size) e)).reserved).isSome = true
  | [], e, h => by
    rcases h with h | h
    · simp at h
    · exact h
  | it :: rest, e, h => by
    rw [List.foldl_cons]
    rcases h with h | h
    · rcases h with ⟨it2, hmem, hty⟩
      rcases List.mem_cons.mp hmem with he | hm
    -- either the head is the 1-year Reservation item (then the key is set
    -- now and stays present), or it is in the tail
      · subst he
        apply foldDiskItems_reserved_present disk_size rest
        right
        unfold processDiskItem
        rw [if_neg (by rw [hty.1]; decide), if_pos hty]
        simp [lookup_dictSet]
      · exact foldDiskItems_reserved_present disk_size rest _
          (Or.inl ⟨it2, hm, hty⟩)
    · exact foldDiskItems_reserved_present disk_size rest _
        (Or.inr (processDiskItem_reserved_present disk_size e it h))

/-- C1 (amended): for a processed (tier-resolvable) pair, the reconciliation
stores rates under the declared disk-size key and under no other key: lookups
at every other key are unchanged in both maps; whenever the record list
contains an ongoing-consumption record, the pay-as-you-go map ends up
populated at the declared-size key; and whenever it contains a 1-year
reservation record, the reserved map ends up populated at the declared-size
key.  The declared size equals the resolved tier capacity only when the
declared size is itself a breakpoint. -/
theorem C1_rates_stored_under_declared_size (disk_sku : String) (disk_size : Nat)
    (tier : String) (items : List DiskRawItem) (e : DiskPricingEntry)
    (htier : get_tier_from_size disk_size disk_sku = some tier) :
    (∀ j : Nat, j ≠ disk_size →
      List.lookup j (processDiskSku e disk_sku disk_size items).pay_as_you_go =
        List.lookup j e.pay_as_you_go ∧
      List.lookup j (processDiskSku e disk_sku disk_size items).reserved =
        List.lookup j e.reserved) ∧
    ((∃ it ∈ items, it.type = "Consumption") →
      (List.lookup disk_size
        (processDiskSku e disk_sku disk_size items).pay_as_you_go).isSome
        = true) ∧
    ((∃ it ∈ items, it.type = "Reservation" ∧
        it.reservationTerm = some "1 Year") →
      (List.lookup disk_size
        (processDiskSku e disk_sku disk_size items).reserved).isSome
        = true) := by
  unfold processDiskSku
  rw [htier]
  exact ⟨fun j hj => foldDiskItems_lookup_ne disk_size j hj items e,
    fun hex => foldDiskItems_payg_present disk_size items e (Or.inl hex),
    fun hex => foldDiskItems_reserved_present disk_size items e (Or.inl hex)⟩

/-- C1 counterexample: a Premium disk declared at 100 GiB resolves to tier
P10 whose capacity breakpoint is 128, yet the consumption price and the
1-year reservation price of the raw records are stored under key 100 — the
resolved tier capacity key 128 is populated in neither map.  This falsifies
the claim that rates are stored under the resolved tier's capacity key. -/
theorem C1_counterexample :
    get_tier_from_size 100 "Premium_LRS" = some "P10" ∧
    tierCapacity 100 "Premium_LRS" = some 128 ∧
    List.lookup 128
      (processDiskSku {} "Premium_LRS" 100
        [⟨"Consumption", none, 7⟩, ⟨"Reservation", some "1 Year", 4⟩]
        ).pay_as_you_go = none ∧
    List.lookup 100
      (processDiskSku {} "Premium_LRS" 100
        [⟨"Consumption", none, 7⟩, ⟨"Reservation", some "1 Year", 4⟩]
        ).pay_as_you_go = some 7 ∧
    List.lookup 128
      (processDiskSku {} "Premium_LRS" 100
        [⟨"Consumption", none, 7⟩, ⟨"Reservation", some "1 Year", 4⟩]
        ).reserved = none ∧
    List.lookup 100
      (processDiskSku {} "Premium_LRS" 100
        [⟨"Consumption", none, 7⟩, ⟨"Reservation", some "1 Year", 4⟩]
        ).reserved = some 4 := by decide

/-- C1 witness: the amended theorem applied to the 100 GiB Premium pair with
one consumption record and one 1-year reservation record, at the foreign key
128 (the resolved tier capacity) and at the declared-size key 100. -/
theorem C1_witness :
    List.lookup 128
      (processDiskSku {} "Premium_LRS" 100
        [⟨"Consumption", none, 7⟩, ⟨"Reservation", some "1 Year", 4⟩]
        ).pay_as_you_go = List.lookup 128 (DiskPricingEntry.pay_as_you_go {}) ∧
    List.lookup 128
      (processDiskSku {} "Premium_LRS" 100
        [⟨"Consumption", none, 7⟩, ⟨"Reservation", some "1 Year", 4⟩]
        ).reserved = List.lookup 128 (DiskPricingEntry.reserved {}) ∧
    (List.lookup 100
      (processDiskSku {} "Premium_LRS" 100
        [⟨"Consumption", none, 7⟩, ⟨"Reservation", some "1 Year", 4⟩]
        ).pay_as_you_go).isSome = true ∧
    (List.lookup 100
      (processDiskSku {} "Premium_LRS" 100
        [⟨"Consumption", none, 7⟩, ⟨"Reservation", some "1 Year", 4⟩]
        ).reserved).isSome = true := by
  have h := C1_rates_stored_under_declared_size "Premium_LRS" 100 "P10"
    [⟨"Consumption", none, 7⟩, ⟨"Reservation", some "1 Year", 4⟩] {} (by decide)
  exact ⟨(h.1 128 (by decide)).1, (h.1 128 (by decide)).2,
    h.2.1 ⟨⟨"Consumption", none, 7⟩, by decide, rfl⟩,
    h.2.2 ⟨⟨"Reservation", some "1 Year", 4⟩, by decide, rfl, rfl⟩⟩

/-! ### Cost derivation (src/azsm/cost_calculator.py)

The committed module does not even parse: lines 64-67 duplicate the
`reservations_low_priority_percent` assignment with one extra space of
indentation, an `IndentationError` raised as soon as the module is imported.
The savings-percent step below models those lines as the dedented
assignments they plainly intend; everything else is modelled statement by
statement from the source.

`_calculate_vm_cost` reads `pricing["reservations_1yr"]` (line 110) although
the pricing reconciler never creates that key, so the per-OS dict view of a
`VmPricingResult` is modelled as an association list and a missing key is a
`KeyError`.  Even with those keys present, line 134 reads the undefined name
`reservation_1yr_cost` (the variable is `reservations_1yr_cost`), a
`NameError`. -/

structure DiskResource where
  name : String
  location : String
  sku : String
  disk_size_gb : Nat
deriving DecidableEq

structure AltTier where
  type : String
  name : String
  tier_name : Option String
  cost : ℚ
  reserved_cost : Option ℚ
  savings : ℚ
  savings_percent : ℚ
deriving DecidableEq

structure DiskDetail where
  name : String
  sku : String
  tier_name : Option String
  size_gb : Nat
  region : String
  current_monthly_cost : ℚ
  reserved_monthly_cost : Option ℚ
  reservation_eligible : Bool
  savings : ℚ
  alternative_tiers : List AltTier
deriving DecidableEq

structure CostData where
  current_monthly_cost : ℚ := 0
  spot_monthly_cost : ℚ := 0
  low_priority_monthly_cost : ℚ := 0
  savings_plan_1yr_monthly_cost : ℚ := 0
  savings_plan_3yr_monthly_cost : ℚ := 0
  hybrid_monthly_cost : ℚ := 0
  hybrid_savings_plan_1yr : ℚ := 0
  hybrid_savings_plan_3yr : ℚ := 0
  savings_spot_percent : ℚ := 0
  savings_low_priority_percent : ℚ := 0
  savings_plan_1yr_percent : ℚ := 0
  savings_plan_3yr_percent : ℚ := 0
  reservations_1yr_monthly_cost : ℚ := 0
  reservations_3yr_monthly_cost : ℚ := 0
  reservations_low_priority_percent : ℚ := 0
  hybrid_savings_percent : ℚ := 0
  hybrid_savings_plan_1yr_percent : ℚ := 0
  hybrid_savings_plan_3yr_percent : ℚ := 0
  detailed_disks : List DiskDetail := []
deriving DecidableEq

/-- The per-OS pricing dict built by the reconciler for the Linux family
(pricing_client.py lines 108-114): exactly these five keys exist. -/
def linuxPricingDict (p : LinuxPricing) : List (String × Option ℚ) :=
  [("pay_as_you_go", p.pay_as_you_go), ("low_priority", p.low_priority),
   ("spot", p.spot), ("savings_plan_1yr", p.savings_plan_1yr),
   ("savings_plan_3yr", p.savings_plan_3yr)]

/-- The per-OS pricing dict built by the reconciler for the Windows family
(pricing_client.py lines 98-107): exactly these eight keys exist. -/
def windowsPricingDict (p : WindowsPricing) : List (String × Option ℚ) :=
  [("pay_as_you_go", p.pay_as_you_go), ("low_priority", p.low_priority),
   ("spot", p.spot), ("savings_plan_1yr", p.savings_plan_1yr),
   ("savings_plan_3yr", p.savings_plan_3yr),
   ("hybrid_benefit", p.hybrid_benefit),
   ("hybrid_savings_plan_1yr", p.hybrid_savings_plan_1yr),
   ("hybrid_savings_plan_3yr", p.hybrid_savings_plan_3yr)]

/-- Python `d[k]` on a dict with optional-float values: a missing key raises
`KeyError`. -/
def dictGetS (m : List (String × Option ℚ)) (k : String) :
    Except String (Option ℚ) :=
  match List.lookup k m with
  | some v => Except.ok v
  | none => Except.error ("KeyError: " ++ k)

/-- The body of `_calculate_vm_cost` after the coverage check (lines 99-138):
each slot is read from the dict (KeyError if absent) and its monthly cost is
the hourly rate times 730, falling back to the standard ongoing cost when the
slot is falsy.  Line 110 reads the key `reservations_1yr`, which the
reconciler never creates; if it existed, line 134 would raise a `NameError`
reading the undefined `reservation_1yr_cost`. -/
def calcVmCostInner (pricing : List (String × Option ℚ)) :
    Except String CostData :=
  match dictGetS pricing "pay_as_you_go" with
  | Except.error e => Except.error e
  | Except.ok payg =>
    let current : ℚ := if truthyOpt payg then payg.getD 0 * 730 else 0
    match dictGetS pricing "spot" with
    | Except.error e => Except.error e
    | Except.ok spotv =>
      let _spot_cost := if truthyOpt spotv then spotv.getD 0 * 730 else current
      match dictGetS pricing "low_priority" with
      | Except.error e => Except.error e
      | Except.ok lpv =>
        let _low_priority_cost := if truthyOpt lpv then lpv.getD 0 * 730 else current
        match dictGetS pricing "savings_plan_1yr" with
        | Except.error e => Except.error e
        | Except.ok sp1v =>
          let _sp1_cost := if truthyOpt sp1v then sp1v.getD 0 * 730 else current
          match dictGetS pricing "savings_plan_3yr" with
          | Except.error e => Except.error e
          | Except.ok sp3v =>
            let _sp3_cost := if truthyOpt sp3v then sp3v.getD 0 * 730 else current
            match dictGetS pricing "reservations_1yr" with
            | Except.error e => Except.error e
            | Except.ok r1v =>
              let _r1_cost := if truthyOpt r1v then r1v.getD 0 * 730 else current
              match dictGetS pricing "reservations_3yr" with
              | Except.error e => Except.error e
              | Except.ok r3v =>
                let _r3_cost := if truthyOpt r3v then r3v.getD 0 * 730 else current
                Except.error "NameError: name reservation_1yr_cost is not defined"

/-- `_calculate_vm_cost` (lines 89-138): a missing (region, size) pair is a
silent no-op; with coverage the per-OS dict is processed. -/
def calcVmCost (vm : VmResource)
    (vmPricing : List (String × List (String × VmPricingResult)))
    (cost : CostData) : Except String CostData :=
  match List.lookup vm.location vmPricing with
  | none => Except.ok cost
  | some regionPricing =>
    match List.lookup vm.vm_size regionPricing with
    | none => Except.ok cost
    | some pr =>
      calcVmCostInner
        (if vm.os_type = "Windows" then windowsPricingDict pr.windows
         else linuxPricingDict pr.linux)

/-- Line 159: `sorted(original_sku_pricing["pay_as_you_go"].keys())`. -/
def diskAvailableSizes (entry : DiskPricingEntry) : List Nat :=
  (dictKeys entry.pay_as_you_go).insertionSort (· ≤ ·)

/-- Line 160: `next((s for s in available_sizes if s >= size_gb),
available_sizes[-1])`; `available_sizes[-1]` is evaluated eagerly, so an
empty list raises `IndexError` (modelled as `none`). -/
def diskTargetSize (entry : DiskPricingEntry) (size_gb : Nat) : Option Nat :=
  match (diskAvailableSizes entry).getLast? with
  | none => none
  | some last =>
    some (((diskAvailableSizes entry).find?
      (fun s => decide (size_gb ≤ s))).getD last)

def altPairs : List (String × String) :=
  [("StandardSSD_LRS", "Standard SSD"), ("Standard_LRS", "Standard HDD")]

/-- Lines 179-205: the Standard SSD / Standard HDD substitution options for a
Premium disk, at the resolved target size. -/
def diskAlternatives (disk : DiskResource)
    (disk_pricing : List (String × DiskPricingEntry)) (target_size : Nat)
    (current_cost : ℚ) : List AltTier :=
  altPairs.foldl (fun acc p =>
    match List.lookup p.1 disk_pricing with
    | none => acc
    | some alt_pricing =>
      match List.lookup target_size alt_pricing.pay_as_you_go with
      | none => acc
      | some alt_price =>
        acc ++
          [{ type := p.1, name := p.2,
             tier_name := get_tier_from_size disk.disk_size_gb p.1,
             cost := alt_price,
             reserved_cost := List.lookup target_size alt_pricing.reserved,
             savings := current_cost - alt_price,
             savings_percent := if current_cost > 0 then
               (current_cost - alt_price) / current_cost * 100 else 0 }]) []

/-- Lines 208-213 and 219-222: `if reserved_price:` — truthiness, so a
reservation price of 0.0 counts as absent. -/
def diskReservedCost (reserved_price : Option ℚ) : Option ℚ :=
  if truthyOpt reserved_price then reserved_price else none

/-- `_calculate_disk_cost` (lines 140-238). -/
def calcDiskCost (disk : DiskResource)
    (disksPricing : List (String × List (String × DiskPricingEntry)))
    (cost : CostData) : Except String CostData :=
  if disk.disk_size_gb = 0 ∨ disk.sku = "" then Except.ok cost
  else
    match List.lookup disk.location disksPricing with
    | none => Except.ok cost
    | some disk_pricing =>
      match List.lookup disk.sku disk_pricing with
      | none => Except.ok cost
      | some original_sku_pricing =>
        match diskTargetSize original_sku_pricing disk.disk_size_gb with
        | none => Except.error "IndexError: list index out of range"
        | some target_size =>
          match List.lookup target_size original_sku_pricing.pay_as_you_go with
          | none => Except.ok cost
          | some pay_as_you_go_price =>
            let current_cost := pay_as_you_go_price
            let reserved_price :=
              List.lookup target_size original_sku_pricing.reserved
            let savings_options :=
              if strStartsWith disk.sku "Premium" then
                diskAlternatives disk disk_pricing target_size current_cost
              else []
            let reserved_cost := diskReservedCost reserved_price
            let savings := if truthyOpt reserved_price then
              current_cost - reserved_price.getD 0 else 0
            Except.ok { cost with
              current_monthly_cost := cost.current_monthly_cost + current_cost,
              savings_plan_3yr_monthly_cost :=
                cost.savings_plan_3yr_monthly_cost +
                  (if truthyOpt reserved_cost then reserved_cost.getD 0
                   else current_cost),
              detailed_disks := cost.detailed_disks ++
                [{ name := disk.name, sku := disk.sku,
                   tier_name := get_tier_from_size disk.disk_size_gb disk.sku,
                   size_gb := disk.disk_size_gb, region := disk.location,
                   current_monthly_cost := current_cost,
                   reserved_monthly_cost := reserved_cost,
                   reservation_eligible := reserved_cost.isSome,
                   savings := savings,
                   alternative_tiers := savings_options }] }

/-- Lines 61-85 as intended (lines 64-67 dedented): the savings percentages,
set only when the aggregate baseline is positive. -/
def computeSavingsPercents (c : CostData) : CostData :=
  if c.current_monthly_cost > 0 then
    { c with
      savings_spot_percent :=
        (c.current_monthly_cost - c.spot_monthly_cost) /
          c.current_monthly_cost * 100,
      reservations_low_priority_percent :=
        (c.current_monthly_cost - c.low_priority_monthly_cost) /
          c.current_monthly_cost * 100,
      savings_low_priority_percent :=
        (c.current_monthly_cost - c.low_priority_monthly_cost) /
          c.current_monthly_cost * 100,
      savings_plan_1yr_percent :=
        (c.current_monthly_cost - c.savings_plan_1yr_monthly_cost) /
          c.current_monthly_cost * 100,
      savings_plan_3yr_percent :=
        (c.current_monthly_cost - c.savings_plan_3yr_monthly_cost) /
          c.current_monthly_cost * 100,
      hybrid_savings_percent :=
        (c.current_monthly_cost - c.hybrid_monthly_cost) /
          c.current_monthly_cost * 100,
      hybrid_savings_plan_1yr_percent :=
        (c.current_monthly_cost - c.hybrid_savings_plan_1yr) /
          c.current_monthly_cost * 100,
      hybrid_savings_plan_3yr_percent :=
        (c.current_monthly_cost - c.hybrid_savings_plan_3yr) /
          c.current_monthly_cost * 100 }
  else c

/-- `CostCalculator.calculate_costs` (lines 16-87): initialize, fold the VM
and disk lists, then derive the savings percentages. -/
def calculateCosts (vms : List VmResource) (disks : List DiskResource)
    (vmPricing : List (String × List (String × VmPricingResult)))
    (diskPricing : List (String × List (String × DiskPricingEntry))) :
    Except String CostData :=
  match vms.foldlM (fun c vm => calcVmCost vm vmPricing c) ({} : CostData) with
  | Except.error e => Except.error e
  | Except.ok c1 =>
    match disks.foldlM (fun c d => calcDiskCost d diskPricing c) c1 with
    | Except.error e => Except.error e
    | Except.ok c2 => Except.ok (computeSavingsPercents c2)

theorem calcVmCostInner_not_ok (pricing : List (String × Option ℚ))
    (c : CostData) : calcVmCostInner pricing ≠ Except.ok c := by
  unfold calcVmCostInner
  cases dictGetS pricing "pay_as_you_go" with
  | error e => simp
  | ok payg =>
    cases dictGetS pricing "spot" with
    | error e => simp
    | ok spotv =>
      cases dictGetS pricing "low_priority" with
      | error e => simp
      | ok lpv =>
        cases dictGetS pricing "savings_plan_1yr" with
        | error e => simp
        | ok sp1v =>
          cases dictGetS pricing "savings_plan_3yr" with
          | error e => simp
          | ok sp3v =>
            cases dictGetS pricing "reservations_1yr" with
            | error e => simp
            | ok r1v =>
              cases dictGetS pricing "reservations_3yr" with
              | error e => simp
              | ok r3v => simp

theorem calcVmCost_ok {vm : VmResource}
    {vmP : List (String × List (String × VmPricingResult))} {c c2 : CostData}
    (h : calcVmCost vm vmP c = Except.ok c2) : c2 = c := by
  unfold calcVmCost at h
  rcases hl : List.lookup vm.location vmP with _ | regionPricing <;>
    rw [hl] at h <;> dsimp only at h
  · simp at h; exact h.symm
  · rcases hs : List.lookup vm.vm_size regionPricing with _ | pr <;>
      rw [hs] at h <;> dsimp only at h
    · simp at h; exact h.symm
    · exact absurd h (calcVmCostInner_not_ok _ c2)

theorem foldlM_except_pres {α : Type} (f : CostData → α → Except String CostData)
    (P : CostData → Prop)
    (hf : ∀ c a c2, f c a = Except.ok c2 → P c → P c2) :
    ∀ (l : List α) (c c2 : CostData),
    l.foldlM f c = Except.ok c2 → P c → P c2
  | [], c, c2, h, hp => by
    simp [List.foldlM, pure, Except.pure] at h
    exact h ▸ hp
  | a :: l, c, c2, h, hp => by
    rw [List.foldlM_cons] at h
    rcases hstep : f c a with e | c1 <;> rw [hstep] at h
    · simp [Bind.bind, Except.bind] at h
    · have h2 : l.foldlM f c1 = Except.ok c2 := by
        simpa [Bind.bind, Except.bind] using h
      exact foldlM_except_pres f P hf l c1 c2 h2 (hf c a c1 hstep hp)

/-- On the successful path, `_calculate_disk_cost` changes only the
current-cost accumulator, the 3-year savings-plan accumulator and the
detailed list; every other aggregate and every percentage field is
untouched. -/
theorem calcDiskCost_ok_inv {disk : DiskResource}
    {P : List (String × List (String × DiskPricingEntry))} {c c2 : CostData}
    (h : calcDiskCost disk P c = Except.ok c2) :
    c2.spot_monthly_cost = c.spot_monthly_cost ∧
    c2.low_priority_monthly_cost = c.low_priority_monthly_cost ∧
    c2.savings_plan_1yr_monthly_cost = c.savings_plan_1yr_monthly_cost ∧
    c2.hybrid_monthly_cost = c.hybrid_monthly_cost ∧
    c2.hybrid_savings_plan_1yr = c.hybrid_savings_plan_1yr ∧
    c2.hybrid_savings_plan_3yr = c.hybrid_savings_plan_3yr ∧
    c2.reservations_1yr_monthly_cost = c.reservations_1yr_monthly_cost ∧
    c2.reservations_3yr_monthly_cost = c.reservations_3yr_monthly_cost ∧
    c2.savings_spot_percent = c.savings_spot_percent ∧
    c2.savings_low_priority_percent = c.savings_low_priority_percent ∧
    c2.savings_plan_1yr_percent = c.savings_plan_1yr_percent ∧
    c2.savings_plan_3yr_percent = c.savings_plan_3yr_percent ∧
    c2.reservations_low_priority_percent = c.reservations_low_priority_percent ∧
    c2.hybrid_savings_percent = c.hybrid_savings_percent ∧
    c2.hybrid_savings_plan_1yr_percent = c.hybrid_savings_plan_1yr_percent ∧
    c2.hybrid_savings_plan_3yr_percent = c.hybrid_savings_plan_3yr_percent := by
  unfold calcDiskCost at h
  repeat' split at h
  all_goals cases h
  all_goals
    exact ⟨rfl, rfl, rfl, rfl, rfl, rfl, rfl, rfl, rfl, rfl, rfl, rfl, rfl,
      rfl, rfl, rfl⟩

/-- C2: the cost-derivation engine does raise.  A disk whose (region, sku)
pair has coverage but whose pay-as-you-go map is empty (exactly what a failed
catalog query leaves behind) raises `IndexError` at line 160 instead of
warning and skipping, and any compute resource with pricing coverage raises
`KeyError` at line 110 because the reconciler never creates the
`reservations_1yr` slot; both abort the run with no CostResult.  (The module
as committed cannot even be imported: lines 64-67 are an IndentationError.) -/
theorem C2_cost_engine_raises :
    calculateCosts [] [⟨"disk1", "eastus", "Premium_LRS", 100⟩] []
      [("eastus", [("Premium_LRS", {})])] =
      Except.error "IndexError: list index out of range" ∧
    calculateCosts [⟨"vm1", "eastus", "Standard_D4s_v3", "Linux"⟩] []
      [("eastus", [("Standard_D4s_v3", {})])] [] =
      Except.error "KeyError: reservations_1yr" := ⟨rfl, rfl⟩

/-- C6: the no-discount fallback is unreachable — for a compute pricing
record with a standard ongoing rate and every other slot absent (and for any
other covered record), `_calculate_vm_cost` raises `KeyError:
reservations_1yr` at line 110 before accumulating any cost, because the
pricing reconciler only ever creates the five slots of lines 108-114. -/
theorem C6_fallback_unreachable :
    calcVmCost ⟨"vm1", "eastus", "Standard_D4s_v3", "Linux"⟩
      [("eastus",
        [("Standard_D4s_v3", { linux := { pay_as_you_go := some 2 } })])] {} =
      Except.error "KeyError: reservations_1yr" := rfl

theorem diskReservedAddend_eq (x : Option ℚ) (cur : ℚ) :
    (if truthyOpt (diskReservedCost x) then (diskReservedCost x).getD 0 else cur) =
    (if truthyOpt x then x.getD 0 else cur) := by
  unfold diskReservedCost
  cases x with
  | none => simp [truthyOpt]
  | some q => by_cases hq : q = 0 <;> simp [truthyOpt, hq]

/-- C10 (amended): for a disk with pricing coverage, the ongoing price at the
resolved size key is added to the current-cost accumulator; the 3-year
savings-plan accumulator receives the 1-year reservation price when one is
present with a nonzero value, and the ongoing price otherwise (Python
truthiness: a reservation price of 0.0 falls back to the ongoing price); no
other aggregate accumulator changes. -/
theorem C10_disk_accumulation (disk : DiskResource)
    (P : List (String × List (String × DiskPricingEntry))) (c : CostData)
    (rp : List (String × DiskPricingEntry)) (entry : DiskPricingEntry)
    (target : Nat) (payg : ℚ)
    (h1 : ¬ (disk.disk_size_gb = 0 ∨ disk.sku = ""))
    (h2 : List.lookup disk.location P = some rp)
    (h3 : List.lookup disk.sku rp = some entry)
    (h4 : diskTargetSize entry disk.disk_size_gb = some target)
    (h5 : List.lookup target entry.pay_as_you_go = some payg) :
    ∃ c2, calcDiskCost disk P c = Except.ok c2 ∧
      c2.current_monthly_cost = c.current_monthly_cost + payg ∧
      c2.savings_plan_3yr_monthly_cost = c.savings_plan_3yr_monthly_cost +
        (if truthyOpt (List.lookup target entry.reserved) then
          (List.lookup target entry.reserved).getD 0 else payg) ∧
      c2.spot_monthly_cost = c.spot_monthly_cost ∧
      c2.low_priority_monthly_cost = c.low_priority_monthly_cost ∧
      c2.savings_plan_1yr_monthly_cost = c.savings_plan_1yr_monthly_cost ∧
      c2.reservations_1yr_monthly_cost = c.reservations_1yr_monthly_cost ∧
      c2.reservations_3yr_monthly_cost = c.reservations_3yr_monthly_cost ∧
      c2.hybrid_monthly_cost = c.hybrid_monthly_cost ∧
      c2.hybrid_savings_plan_1yr = c.hybrid_savings_plan_1yr ∧
      c2.hybrid_savings_plan_3yr = c.hybrid_savings_plan_3yr := by
  unfold calcDiskCost
  rw [if_neg h1, h2]
  dsimp only
  rw [h3]
  dsimp only
  rw [h4]
  dsimp only
  rw [h5]
  dsimp only
  refine ⟨_, rfl, rfl, ?_, rfl, rfl, rfl, rfl, rfl, rfl, rfl, rfl⟩
  exact congrArg (fun z => c.savings_plan_3yr_monthly_cost + z)
    (diskReservedAddend_eq (List.lookup target entry.reserved) payg)

/-- C10 counterexample: a disk whose pricing has a 1-year reservation price
present with value 0 at the resolved key: the claim says the reservation
price (0) is accumulated into the 3-year aggregate, but the code's
truthiness check treats 0.0 as absent and accumulates the ongoing price 5. -/
theorem C10_counterexample :
    ∃ c2, calcDiskCost ⟨"d1", "eastus", "Premium_LRS", 32⟩
        [("eastus", [("Premium_LRS", ⟨[(32, 5)], [(32, 0)]⟩)])] {} =
        Except.ok c2 ∧
      List.lookup 32 (DiskPricingEntry.mk [(32, 5)] [(32, 0)]).reserved =
        some 0 ∧
      c2.savings_plan_3yr_monthly_cost = 5 ∧ (5 : ℚ) ≠ 0 := by
  refine ⟨⟨0 + 5, 0, 0, 0, 0 + 5, 0, 0, 0, 0, 0, 0, 0, 0, 0, 0, 0, 0, 0,
    [⟨"d1", "Premium_LRS", some "P4", 32, "eastus", 5, none, false, 0, []⟩]⟩,
    rfl, by decide, by norm_num, by norm_num⟩

/-- C10 witness: the amended theorem applied to a disk of 50 GiB whose
pricing table holds ongoing price 7 and reservation price 3 at key 64. -/
theorem C10_witness :
    ∃ c2, calcDiskCost ⟨"d2", "westus", "Premium_LRS", 50⟩
        [("westus", [("Premium_LRS", ⟨[(64, 7)], [(64, 3)]⟩)])] {} =
        Except.ok c2 ∧
      c2.current_monthly_cost = CostData.current_monthly_cost {} + 7 ∧
      c2.savings_plan_3yr_monthly_cost =
        CostData.savings_plan_3yr_monthly_cost {} +
        (if truthyOpt (List.lookup 64
            (DiskPricingEntry.mk [(64, 7)] [(64, 3)]).reserved) then
          (List.lookup 64
            (DiskPricingEntry.mk [(64, 7)] [(64, 3)]).reserved).getD 0
         else 7) ∧
      c2.spot_monthly_cost = CostData.spot_monthly_cost {} := by
  have h := C10_disk_accumulation ⟨"d2", "westus", "Premium_LRS", 50⟩
    [("westus", [("Premium_LRS", ⟨[(64, 7)], [(64, 3)]⟩)])] {}
    [("Premium_LRS", ⟨[(64, 7)], [(64, 3)]⟩)] ⟨[(64, 7)], [(64, 3)]⟩ 64 7
    (by decide) (by decide) (by decide) (by decide) (by decide)
  rcases h with ⟨c2, hrun, hcur, hsp3, hspot, _⟩
  exact ⟨c2, hrun, hcur, hsp3, hspot⟩

/-- The savings-percent step leaves every accumulator unchanged. -/
theorem computeSavingsPercents_acc (c : CostData) :
    (computeSavingsPercents c).current_monthly_cost = c.current_monthly_cost ∧
    (computeSavingsPercents c).spot_monthly_cost = c.spot_monthly_cost ∧
    (computeSavingsPercents c).low_priority_monthly_cost =
      c.low_priority_monthly_cost ∧
    (computeSavingsPercents c).savings_plan_1yr_monthly_cost =
      c.savings_plan_1yr_monthly_cost ∧
    (computeSavingsPercents c).savings_plan_3yr_monthly_cost =
      c.savings_plan_3yr_monthly_cost ∧
    (computeSavingsPercents c).hybrid_monthly_cost = c.hybrid_monthly_cost ∧
    (computeSavingsPercents c).hybrid_savings_plan_1yr =
      c.hybrid_savings_plan_1yr ∧
    (computeSavingsPercents c).hybrid_savings_plan_3yr =
      c.hybrid_savings_plan_3yr := by
  unfold computeSavingsPercents
  split_ifs <;> exact ⟨rfl, rfl, rfl, rfl, rfl, rfl, rfl, rfl⟩

theorem computeSavingsPercents_pos (c : CostData)
    (hpos : c.current_monthly_cost > 0) :
    (computeSavingsPercents c).savings_spot_percent =
      (c.current_monthly_cost - c.spot_monthly_cost) /
        c.current_monthly_cost * 100 ∧
    (computeSavingsPercents c).savings_low_priority_percent =
      (c.current_monthly_cost - c.low_priority_monthly_cost) /
        c.current_monthly_cost * 100 ∧
    (computeSavingsPercents c).reservations_low_priority_percent =
      (c.current_monthly_cost - c.low_priority_monthly_cost) /
        c.current_monthly_cost * 100 ∧
    (computeSavingsPercents c).savings_plan_1yr_percent =
      (c.current_monthly_cost - c.savings_plan_1yr_monthly_cost) /
        c.current_monthly_cost * 100 ∧
    (computeSavingsPercents c).savings_plan_3yr_percent =
      (c.current_monthly_cost - c.savings_plan_3yr_monthly_cost) /
        c.current_monthly_cost * 100 ∧
    (computeSavingsPercents c).hybrid_savings_percent =
      (c.current_monthly_cost - c.hybrid_monthly_cost) /
        c.current_monthly_cost * 100 ∧
    (computeSavingsPercents c).hybrid_savings_plan_1yr_percent =
      (c.current_monthly_cost - c.hybrid_savings_plan_1yr) /
        c.current_monthly_cost * 100 ∧
    (computeSavingsPercents c).hybrid_savings_plan_3yr_percent =
      (c.current_monthly_cost - c.hybrid_savings_plan_3yr) /
        c.current_monthly_cost * 100 := by
  unfold computeSavingsPercents
  rw [if_pos hpos]
  exact ⟨rfl, rfl, rfl, rfl, rfl, rfl, rfl, rfl⟩

/-- All eight percentage fields of a CostData are zero. -/
def percentFieldsZero (c : CostData) : Prop :=
  c.savings_spot_percent = 0 ∧ c.savings_low_priority_percent = 0 ∧
  c.reservations_low_priority_percent = 0 ∧ c.savings_plan_1yr_percent = 0 ∧
  c.savings_plan_3yr_percent = 0 ∧ c.hybrid_savings_percent = 0 ∧
  c.hybrid_savings_plan_1yr_percent = 0 ∧ c.hybrid_savings_plan_3yr_percent = 0

theorem calcDiskCost_pz {disk : DiskResource}
    {P : List (String × List (String × DiskPricingEntry))} {c c2 : CostData}
    (h : calcDiskCost disk P c = Except.ok c2) (hp : percentFieldsZero c) :
    percentFieldsZero c2 := by
  obtain ⟨_, _, _, _, _, _, _, _, p1, p2, p3, p4, p5, p6, p7, p8⟩ :=
    calcDiskCost_ok_inv h
  exact ⟨p1.trans hp.1, p2.trans hp.2.1, p5.trans hp.2.2.1, p3.trans hp.2.2.2.1,
    p4.trans hp.2.2.2.2.1, p6.trans hp.2.2.2.2.2.1, p7.trans hp.2.2.2.2.2.2.1,
    p8.trans hp.2.2.2.2.2.2.2⟩

/-- C7: whenever `calculate_costs` (as intended, see module comment) returns
a result with aggregate baseline 0, every savings percentage is exactly 0 —
no division is performed; with a positive baseline every percentage equals
(baseline − option) / baseline × 100. -/
theorem C7_savings_guard (vms : List VmResource) (disks : List DiskResource)
    (vmP : List (String × List (String × VmPricingResult)))
    (diskP : List (String × List (String × DiskPricingEntry))) (r : CostData)
    (h : calculateCosts vms disks vmP diskP = Except.ok r) :
    (r.current_monthly_cost = 0 →
      r.savings_spot_percent = 0 ∧ r.savings_low_priority_percent = 0 ∧
      r.reservations_low_priority_percent = 0 ∧
      r.savings_plan_1yr_percent = 0 ∧ r.savings_plan_3yr_percent = 0 ∧
      r.hybrid_savings_percent = 0 ∧ r.hybrid_savings_plan_1yr_percent = 0 ∧
      r.hybrid_savings_plan_3yr_percent = 0) ∧
    (0 < r.current_monthly_cost →
      r.savings_spot_percent =
        (r.current_monthly_cost - r.spot_monthly_cost) /
          r.current_monthly_cost * 100 ∧
      r.savings_low_priority_percent =
        (r.current_monthly_cost - r.low_priority_monthly_cost) /
          r.current_monthly_cost * 100 ∧
      r.reservations_low_priority_percent =
        (r.current_monthly_cost - r.low_priority_monthly_cost) /
          r.current_monthly_cost * 100 ∧
      r.savings_plan_1yr_percent =
        (r.current_monthly_cost - r.savings_plan_1yr_monthly_cost) /
          r.current_monthly_cost * 100 ∧
      r.savings_plan_3yr_percent =
        (r.current_monthly_cost - r.savings_plan_3yr_monthly_cost) /
          r.current_monthly_cost * 100 ∧
      r.hybrid_savings_percent =
        (r.current_monthly_cost - r.hybrid_monthly_cost) /
          r.current_monthly_cost * 100 ∧
      r.hybrid_savings_plan_1yr_percent =
        (r.current_monthly_cost - r.hybrid_savings_plan_1yr) /
          r.current_monthly_cost * 100 ∧
      r.hybrid_savings_plan_3yr_percent =
        (r.current_monthly_cost - r.hybrid_savings_plan_3yr) /
          r.current_monthly_cost * 100) := by
  unfold calculateCosts at h
  rcases hv : vms.foldlM (fun c vm => calcVmCost vm vmP c) ({} : CostData)
    with e | c1 <;> rw [hv] at h <;> dsimp only at h
  · cases h
  · rcases hd : disks.foldlM (fun c d => calcDiskCost d diskP c) c1
      with e | c2 <;> rw [hd] at h <;> dsimp only at h
    · cases h
    · injection h with h2
      subst h2
      have hz1 : percentFieldsZero c1 :=
        foldlM_except_pres _ percentFieldsZero
          (fun c a c2 hs hp => by rw [calcVmCost_ok hs]; exact hp)
          vms {} c1 hv ⟨rfl, rfl, rfl, rfl, rfl, rfl, rfl, rfl⟩
      have hz2 : percentFieldsZero c2 :=
        foldlM_except_pres _ percentFieldsZero
          (fun c a c2 hs hp => calcDiskCost_pz hs hp)
          disks c1 c2 hd hz1
      have hacc := computeSavingsPercents_acc c2
      constructor
      · intro h0
        have h0c : c2.current_monthly_cost = 0 := by rw [← hacc.1]; exact h0
        have hid : computeSavingsPercents c2 = c2 := by
          unfold computeSavingsPercents
          rw [if_neg]
          rw [h0c]
          exact lt_irrefl 0
        rw [hid]
        exact hz2
      · intro hpos
        have hposc : c2.current_monthly_cost > 0 := by
          rw [← hacc.1]; exact hpos
        have hfields := computeSavingsPercents_pos c2 hposc
        rw [hacc.1, hacc.2.1, hacc.2.2.1, hacc.2.2.2.1, hacc.2.2.2.2.1,
          hacc.2.2.2.2.2.1, hacc.2.2.2.2.2.2.1, hacc.2.2.2.2.2.2.2]
        exact hfields

/-- C7 witness: the empty run returns baseline 0 and all-zero percentages. -/
theorem C7_witness :
    calculateCosts [] [] [] [] = Except.ok ({} : CostData) ∧
    ({} : CostData).savings_spot_percent = 0 ∧
    ({} : CostData).savings_plan_3yr_percent = 0 := by
  have h := C7_savings_guard [] [] [] [] {} rfl
  exact ⟨rfl, (h.1 rfl).1, (h.1 rfl).2.2.2.2.1⟩

end Azsm
